import Mathlib

/-!
Verification of the meglib 2D affine coordinate-transform component
(`src/meglib/baselib.py`, class `CoordinateTransform`).

Floating-point numpy arrays are modelled by exact rationals.  2-element
numpy arrays become `Vec2`, 2x2 numpy matrices become `Mat2`, and the
general N-dimensional numpy arrays used by the array/vector evaluation
forms become `PyArr` (a shape together with a total indexing function).
Python exceptions become an error enumeration `PyErr`; a method that can
raise returns the (possibly partially mutated) object state together with
`Option PyErr`, or an `Except PyErr` result.
-/

namespace Meglib

/-- A 2-vector of rationals: model of a length-2 numpy float array. -/
structure Vec2 where
  x : ℚ
  y : ℚ
deriving DecidableEq, Repr

def Vec2.add (u v : Vec2) : Vec2 := ⟨u.x + v.x, u.y + v.y⟩

instance : Add Vec2 := ⟨Vec2.add⟩

def Vec2.sub (u v : Vec2) : Vec2 := ⟨u.x - v.x, u.y - v.y⟩

instance : Sub Vec2 := ⟨Vec2.sub⟩

def Vec2.neg (u : Vec2) : Vec2 := ⟨-u.x, -u.y⟩

instance : Neg Vec2 := ⟨Vec2.neg⟩

/-- `np.zeros(2)`. -/
def Vec2.zero : Vec2 := ⟨0, 0⟩

/-- A 2x2 rational matrix, row-major: model of a 2x2 numpy float array. -/
structure Mat2 where
  m00 : ℚ
  m01 : ℚ
  m10 : ℚ
  m11 : ℚ
deriving DecidableEq, Repr

/-- `np.identity(2)`. -/
def Mat2.id : Mat2 := ⟨1, 0, 0, 1⟩

/-- `np.array([u, v])`: the matrix with rows `u` and `v`. -/
def Mat2.ofRows (u v : Vec2) : Mat2 := ⟨u.x, u.y, v.x, v.y⟩

/-- `M.T` for a 2x2 matrix. -/
def Mat2.transpose (M : Mat2) : Mat2 := ⟨M.m00, M.m10, M.m01, M.m11⟩

/-- Determinant of a 2x2 matrix. -/
def Mat2.det (M : Mat2) : ℚ := M.m00 * M.m11 - M.m01 * M.m10

/-- The 2x2 matrix inverse (adjugate over determinant); junk if singular. -/
def Mat2.inv (M : Mat2) : Mat2 :=
  ⟨M.m11 / M.det, -M.m01 / M.det, -M.m10 / M.det, M.m00 / M.det⟩

/-- `M.dot(N)` for 2x2 matrices. -/
def Mat2.mul (M N : Mat2) : Mat2 :=
  ⟨M.m00 * N.m00 + M.m01 * N.m10, M.m00 * N.m01 + M.m01 * N.m11,
   M.m10 * N.m00 + M.m11 * N.m10, M.m10 * N.m01 + M.m11 * N.m11⟩

/-- `M.dot(v)` for a 2x2 matrix and a 2-vector. -/
def Mat2.mulVec (M : Mat2) (v : Vec2) : Vec2 :=
  ⟨M.m00 * v.x + M.m01 * v.y, M.m10 * v.x + M.m11 * v.y⟩

/-- `v.dot(M)` for a 2-vector (as a row) and a 2x2 matrix. -/
def Vec2.vecMul (v : Vec2) (M : Mat2) : Vec2 :=
  ⟨v.x * M.m00 + v.y * M.m10, v.x * M.m01 + v.y * M.m11⟩

/-- The Python exceptions relevant to `CoordinateTransform`:
`LinAlgError` from `scipy.linalg.inv` (the spec's SingularTransform), the
`NameError` raised by the unbound name `ep_cdp_points` in
`three_point_set`, numpy's `IndexError` ("too many indices") from basic
indexing, and the `ValueError` from `np.array([a, b])` on arrays of
differing shapes (the spec's ShapeMismatch). -/
inductive PyErr where
  | singularMatrix
  | nameError
  | indexError
  | shapeMismatch
deriving DecidableEq, Repr

/-- `scipy.linalg.inv` on a 2x2 matrix: raises `LinAlgError` ("singular
matrix", the spec's SingularTransform) when the determinant is zero. -/
def linalg_inv (M : Mat2) : Except PyErr Mat2 :=
  if M.det = 0 then .error .singularMatrix else .ok M.inv

/-- State of a `CoordinateTransform` object (fields set by `__init__`). -/
structure CoordinateTransform where
  A : Mat2
  b : Vec2
  A_inv : Mat2
  b_inv : Vec2
  utm : String
deriving DecidableEq, Repr

namespace CoordinateTransform

/-- `CoordinateTransform.__init__`: `A = np.identity(2)`, `b = np.zeros(2)`,
`A_inv = linalg.inv(self.A)` (the identity is never singular, so the
call cannot raise and we inline `Mat2.inv`), `b_inv = -A_inv.dot(b)`,
`utm = ""`. -/
def init : CoordinateTransform :=
  let A := Mat2.id
  let b := Vec2.zero
  let A_inv := Mat2.inv A
  let b_inv := -(A_inv.mulVec b)
  { A := A, b := b, A_inv := A_inv, b_inv := b_inv, utm := "" }

/-- An ordered triple of 2D points (a Python list of three points). -/
structure ThreePoints where
  p0 : Vec2
  p1 : Vec2
  p2 : Vec2
deriving DecidableEq, Repr

/-- The difference matrix built inside `three_point_set`:
`np.array([pts[2] - pts[0], pts[1] - pts[0]])` followed by `.T`,
so its columns are `pts[2] - pts[0]` and `pts[1] - pts[0]`. -/
def deltaMat (pts : ThreePoints) : Mat2 :=
  (Mat2.ofRows (pts.p2 - pts.p0) (pts.p1 - pts.p0)).transpose

/-- `CoordinateTransform.three_point_set(self, x_y_points, i_j_points, utm)`.

Returns the final object state together with the raised exception, if any.
Faithful to the source, including its bug: after `self.utm = utm` and
`self.A = dx.dot(linalg.inv(ds))`, the next line
`self.b = x_y_points[0] - self.A.dot(ep_cdp_points[0])` reads the name
`ep_cdp_points`, which is bound nowhere (not a parameter, local, module
global or import), so Python raises `NameError` before `self.b`,
`self.A_inv` or `self.b_inv` are ever assigned. -/
def three_point_set (t : CoordinateTransform)
    (x_y_points i_j_points : ThreePoints) (utm : String) :
    CoordinateTransform × Option PyErr :=
  let t1 := { t with utm := utm }
  let dx := deltaMat x_y_points
  let ds := deltaMat i_j_points
  match linalg_inv ds with
  | .error e => (t1, some e)
  | .ok dsInv =>
      let t2 := { t1 with A := dx.mul dsInv }
      (t2, some .nameError)

/-- `x_y(self, i_j)`: returns `self.A.dot(i_j) + self.b`. -/
def x_y (t : CoordinateTransform) (i_j : Vec2) : Vec2 :=
  t.A.mulVec i_j + t.b

/-- `i_j(self, x_y)`: returns `self.A_inv.dot(x_y) + self.b_inv`. -/
def i_j (t : CoordinateTransform) (x_y : Vec2) : Vec2 :=
  t.A_inv.mulVec x_y + t.b_inv

/-- `x_y_T(self, ep_cdp)`: returns `np.array(ep_cdp).dot(self.A.T) + self.b`. -/
def x_y_T (t : CoordinateTransform) (ep_cdp : Vec2) : Vec2 :=
  ep_cdp.vecMul t.A.transpose + t.b

/-- `i_j_T(self, x_y)`: returns `np.array(x_y).dot(self.A_inv.T) + self.b_inv`. -/
def i_j_T (t : CoordinateTransform) (x_y : Vec2) : Vec2 :=
  x_y.vecMul t.A_inv.transpose + t.b_inv

end CoordinateTransform

/-- An N-dimensional numpy array of floats, modelled as its shape together
with a total indexing function on index lists (row-major logical indexing:
`a[i0, i1, ...] = a.val [i0, i1, ...]`; the function is junk outside the
shape bounds). -/
structure PyArr where
  shape : List Nat
  val : List Nat → ℚ

/-- The stack of two same-shaped arrays along a new leading axis of
size 2: index 0 gives the first array, index 1 the second. -/
def stackArr (i j : PyArr) : PyArr :=
  ⟨2 :: i.shape, fun idx =>
    match idx with
    | [] => 0
    | m :: rest => if m = 0 then i.val rest else j.val rest⟩

/-- `np.array([i, j])` on two arrays: raises `ValueError` (the spec's
ShapeMismatch) when the shapes differ, else stacks them along a new
leading axis of size 2. -/
def stackPair (i j : PyArr) : Except PyErr PyArr :=
  if i.shape = j.shape then .ok (stackArr i j) else .error .shapeMismatch

/-- `a.T`: reverses all axes. -/
def PyArr.T (a : PyArr) : PyArr :=
  ⟨a.shape.reverse, fun idx => a.val idx.reverse⟩

/-- `a.dot(B)` for an N-dimensional `a` and a 2x2 matrix `B`: sum-product
over the last axis of `a` and the rows of `B`
(`result[..., k] = a[..., 0] * B[0, k] + a[..., 1] * B[1, k]`).
Used only where the last axis of `a` has extent 2. -/
def PyArr.dotM (a : PyArr) (B : Mat2) : PyArr :=
  ⟨a.shape, fun idx =>
    a.val (idx.dropLast ++ [0]) * (if idx.getLastD 0 = 0 then B.m00 else B.m01) +
    a.val (idx.dropLast ++ [1]) * (if idx.getLastD 0 = 0 then B.m10 else B.m11)⟩

/-- `a + b` for an N-dimensional `a` and a 2-vector `b`: numpy broadcast of
`b` along the last axis of `a` (used only where that axis has extent 2). -/
def PyArr.addV (a : PyArr) (b : Vec2) : PyArr :=
  ⟨a.shape, fun idx => a.val idx + (if idx.getLastD 0 = 0 then b.x else b.y)⟩

/-- Basic indexing `a[k, :, :]` (`nidx = 3`) or `a[k, :]` (`nidx = 2`):
raises `IndexError` when the array has fewer dimensions than index
expressions ("too many indices") or `k` exceeds the leading axis; else
fixes the leading axis at `k` (trailing axes beyond the given slices are
kept in full, as numpy does). -/
def PyArr.index (a : PyArr) (k nidx : Nat) : Except PyErr PyArr :=
  if a.shape.length < nidx ∨ a.shape.headD 0 ≤ k then .error .indexError
  else .ok ⟨a.shape.tail, fun idx => a.val (k :: idx)⟩

namespace CoordinateTransform

/-- `x_y_array(self, i, j)`:
`s = np.array([i, j]); x = (s.T.dot(self.A.T) + self.b).T;`
`return x[0,:,:], x[1,:,:]`. -/
def x_y_array (t : CoordinateTransform) (i j : PyArr) :
    Except PyErr (PyArr × PyArr) := do
  let s ← stackPair i j
  let x := ((s.T.dotM t.A.transpose).addV t.b).T
  let x0 ← x.index 0 3
  let x1 ← x.index 1 3
  pure (x0, x1)

/-- `i_j_array(self, x_in, y_in)`:
`x = np.array([x_in, y_in]); s = (x.T.dot(self.A_inv.T) + self.b_inv).T;`
`return s[0,:,:], s[1,:,:]`. -/
def i_j_array (t : CoordinateTransform) (x_in y_in : PyArr) :
    Except PyErr (PyArr × PyArr) := do
  let xa ← stackPair x_in y_in
  let s := ((xa.T.dotM t.A_inv.transpose).addV t.b_inv).T
  let s0 ← s.index 0 3
  let s1 ← s.index 1 3
  pure (s0, s1)

/-- `x_y_vector(self, ep, cdp)`: same pipeline as `x_y_array` but returns
`x[0,:], x[1,:]`. -/
def x_y_vector (t : CoordinateTransform) (ep cdp : PyArr) :
    Except PyErr (PyArr × PyArr) := do
  let s ← stackPair ep cdp
  let x := ((s.T.dotM t.A.transpose).addV t.b).T
  let x0 ← x.index 0 2
  let x1 ← x.index 1 2
  pure (x0, x1)

/-- `i_j_vector(self, x_in, y_in)`: same pipeline as `i_j_array` but returns
`s[0,:], s[1,:]`. -/
def i_j_vector (t : CoordinateTransform) (x_in y_in : PyArr) :
    Except PyErr (PyArr × PyArr) := do
  let xa ← stackPair x_in y_in
  let s := ((xa.T.dotM t.A_inv.transpose).addV t.b_inv).T
  let s0 ← s.index 0 2
  let s1 ← s.index 1 2
  pure (s0, s1)

end CoordinateTransform

/-- Elementwise application of the forward map to coordinate arrays:
the x-component output the spec demands of `x_y_array`. -/
def elemwiseX (t : CoordinateTransform) (i j : PyArr) : PyArr :=
  ⟨i.shape, fun idx => (t.x_y ⟨i.val idx, j.val idx⟩).x⟩

/-- Elementwise forward map, y component. -/
def elemwiseY (t : CoordinateTransform) (i j : PyArr) : PyArr :=
  ⟨j.shape, fun idx => (t.x_y ⟨i.val idx, j.val idx⟩).y⟩

/-- Elementwise application of the inverse map, first component. -/
def elemwiseI (t : CoordinateTransform) (x_in y_in : PyArr) : PyArr :=
  ⟨x_in.shape, fun idx => (t.i_j ⟨x_in.val idx, y_in.val idx⟩).x⟩

/-- Elementwise inverse map, second component. -/
def elemwiseJ (t : CoordinateTransform) (x_in y_in : PyArr) : PyArr :=
  ⟨y_in.shape, fun idx => (t.i_j ⟨x_in.val idx, y_in.val idx⟩).y⟩

/-- A heap of `CoordinateTransform` objects: Python object identity is an
address; `next` is the next fresh address. -/
structure ObjHeap where
  next : Nat
  objs : Nat → CoordinateTransform

def ObjHeap.read (h : ObjHeap) (r : Nat) : CoordinateTransform := h.objs r

def ObjHeap.write (h : ObjHeap) (r : Nat) (t : CoordinateTransform) : ObjHeap :=
  ⟨h.next, fun n => if n = r then t else h.objs n⟩

def ObjHeap.alloc (h : ObjHeap) (t : CoordinateTransform) : ObjHeap × Nat :=
  (⟨h.next + 1, fun n => if n = h.next then t else h.objs n⟩, h.next)

namespace CoordinateTransform

/-- `clone(self)`: `new_transform = CoordinateTransform()` allocates a fresh
object; its `A`, `b`, `A_inv`, `b_inv` are then rebound to `deepcopy`s of
the source's fields (independently owned arrays holding equal values);
`utm` keeps the `""` set by `__init__`. -/
def clone (h : ObjHeap) (r : Nat) : ObjHeap × Nat :=
  let src := h.read r
  h.alloc { init with
            A := src.A, b := src.b, A_inv := src.A_inv, b_inv := src.b_inv }

/-- `three_point_set` invoked on the object at address `r`: the method
rebinds attributes of that object only; the final (possibly partially
mutated) state replaces the old one at `r`. -/
def three_point_set_at (h : ObjHeap) (r : Nat)
    (x_y_points i_j_points : ThreePoints) (utm : String) :
    ObjHeap × Option PyErr :=
  let res := (h.read r).three_point_set x_y_points i_j_points utm
  (h.write r res.1, res.2)

end CoordinateTransform

/-! Small unfolding lemmas for the `Vec2` arithmetic instances. -/

theorem Vec2.add_def (u v : Vec2) : u + v = ⟨u.x + v.x, u.y + v.y⟩ := rfl

theorem Vec2.sub_def (u v : Vec2) : u - v = ⟨u.x - v.x, u.y - v.y⟩ := rfl

theorem Vec2.neg_def (u : Vec2) : -u = ⟨-u.x, -u.y⟩ := rfl

open CoordinateTransform

/-- Evaluation of `__init__`: all four cached fields are the identity data. -/
theorem init_val : init = ⟨Mat2.id, Vec2.zero, Mat2.id, Vec2.zero, ""⟩ := by
  norm_num [init, Mat2.inv, Mat2.det, Mat2.id, Mat2.mulVec, Vec2.zero,
    Vec2.neg_def, Mat2.mk.injEq, Vec2.mk.injEq, CoordinateTransform.mk.injEq]

/-- Evaluation of `three_point_set` on a non-singular difference matrix:
`utm` and `A` are overwritten, then `NameError` is raised, so `b`,
`A_inv` and `b_inv` keep their prior values. -/
theorem three_point_set_nonsingular (t : CoordinateTransform)
    (x_y_points i_j_points : ThreePoints) (utm : String)
    (h : (deltaMat i_j_points).det ≠ 0) :
    t.three_point_set x_y_points i_j_points utm =
      ({ t with utm := utm,
                A := (deltaMat x_y_points).mul (deltaMat i_j_points).inv },
       some PyErr.nameError) := by
  simp [three_point_set, linalg_inv, h]

/-- C7: the default-constructed transform is the identity: `A = I`,
`b = (0,0)`, `A_inv = I`, `b_inv = (0,0)`, and for every point `p`,
`x_y p = p` and `i_j p = p`. -/
theorem default_transform_is_identity :
    init.A = Mat2.id ∧ init.b = Vec2.zero ∧
    init.A_inv = Mat2.id ∧ init.b_inv = Vec2.zero ∧
    ∀ p : Vec2, init.x_y p = p ∧ init.i_j p = p := by
  rw [init_val]
  refine ⟨rfl, rfl, rfl, rfl, fun p => ?_⟩
  obtain ⟨px, py⟩ := p
  constructor <;>
    simp [x_y, i_j, Mat2.mulVec, Mat2.id, Vec2.zero, Vec2.add_def, Vec2.mk.injEq]

/-- C3: for a transform with a coherent cached inverse (`A` invertible,
`A_inv = A⁻¹`, `b_inv = -A_inv·b`), the inverse map undoes the forward
map and vice versa: `i_j (x_y p) = p` and `x_y (i_j p) = p`. -/
theorem forward_inverse_roundtrip (t : CoordinateTransform)
    (hdet : t.A.det ≠ 0) (hAinv : t.A_inv = t.A.inv)
    (hbinv : t.b_inv = -(t.A_inv.mulVec t.b)) (p : Vec2) :
    t.i_j (t.x_y p) = p ∧ t.x_y (t.i_j p) = p := by
  obtain ⟨A, b, Ainv, binv, u⟩ := t
  simp only at hAinv hbinv
  subst hAinv hbinv
  obtain ⟨a00, a01, a10, a11⟩ := A
  obtain ⟨bx, by'⟩ := b
  obtain ⟨px, py⟩ := p
  simp only [Mat2.det] at hdet
  constructor <;>
    · simp only [x_y, i_j, Mat2.inv, Mat2.det, Mat2.mulVec,
        Vec2.add_def, Vec2.neg_def, Vec2.mk.injEq]
      constructor <;> field_simp <;> ring

/-- Witness for C3 at a concrete coherent transform and point. -/
theorem forward_inverse_roundtrip_witness :
    CoordinateTransform.i_j ⟨⟨2, 0, 0, 1⟩, ⟨1, 2⟩, ⟨1/2, 0, 0, 1⟩, ⟨-1/2, -2⟩, ""⟩
      (CoordinateTransform.x_y ⟨⟨2, 0, 0, 1⟩, ⟨1, 2⟩, ⟨1/2, 0, 0, 1⟩, ⟨-1/2, -2⟩, ""⟩ ⟨3, 4⟩) = ⟨3, 4⟩ ∧
    CoordinateTransform.x_y ⟨⟨2, 0, 0, 1⟩, ⟨1, 2⟩, ⟨1/2, 0, 0, 1⟩, ⟨-1/2, -2⟩, ""⟩
      (CoordinateTransform.i_j ⟨⟨2, 0, 0, 1⟩, ⟨1, 2⟩, ⟨1/2, 0, 0, 1⟩, ⟨-1/2, -2⟩, ""⟩ ⟨3, 4⟩) = ⟨3, 4⟩ :=
  forward_inverse_roundtrip ⟨⟨2, 0, 0, 1⟩, ⟨1, 2⟩, ⟨1/2, 0, 0, 1⟩, ⟨-1/2, -2⟩, ""⟩
    (by norm_num [Mat2.det])
    (by norm_num [Mat2.inv, Mat2.det, Mat2.mk.injEq])
    (by norm_num [Mat2.mulVec, Vec2.neg_def, Vec2.mk.injEq]) ⟨3, 4⟩

/-- C6: for every transform and point, the transposed forms agree exactly
with the plain forms: `x_y_T p = x_y p` and `i_j_T p = i_j p`. -/
theorem transposed_forms_agree (t : CoordinateTransform) (p : Vec2) :
    t.x_y_T p = t.x_y p ∧ t.i_j_T p = t.i_j p := by
  obtain ⟨px, py⟩ := p
  constructor <;>
    · simp only [x_y_T, x_y, i_j_T, i_j, Vec2.vecMul, Mat2.transpose,
        Mat2.mulVec, Vec2.add_def, Vec2.mk.injEq]
      constructor <;> ring

/-- C1: the three-point fit cannot set `b` as claimed: on the spec's own
concrete scenario (src `(0,0),(1,0),(0,1)`, dst `(5,5),(6,5),(5,6)`,
non-collinear in both systems) the method raises `NameError` (the unbound
name `ep_cdp_points`), `b` is never assigned, and afterwards
`forward(src[0]) = (0,0) ≠ (5,5) = dst[0]`. -/
theorem three_point_fit_raises_name_error :
    (init.three_point_set ⟨⟨5, 5⟩, ⟨6, 5⟩, ⟨5, 6⟩⟩
        ⟨⟨0, 0⟩, ⟨1, 0⟩, ⟨0, 1⟩⟩ "").2 = some PyErr.nameError ∧
    (init.three_point_set ⟨⟨5, 5⟩, ⟨6, 5⟩, ⟨5, 6⟩⟩
        ⟨⟨0, 0⟩, ⟨1, 0⟩, ⟨0, 1⟩⟩ "").1.b = Vec2.zero ∧
    (init.three_point_set ⟨⟨5, 5⟩, ⟨6, 5⟩, ⟨5, 6⟩⟩
        ⟨⟨0, 0⟩, ⟨1, 0⟩, ⟨0, 1⟩⟩ "").1.x_y ⟨0, 0⟩ ≠ ⟨5, 5⟩ := by
  rw [init_val]
  norm_num [three_point_set, linalg_inv, deltaMat, Mat2.ofRows, Mat2.transpose,
    Mat2.det, Mat2.inv, Mat2.mul, Mat2.mulVec, Mat2.id, Vec2.sub_def,
    Vec2.add_def, Vec2.zero, x_y, Vec2.mk.injEq, Mat2.mk.injEq]

/-- C2: half of the claim holds (collinear source points do raise the
singular-matrix error), but it is not the only failure: with
non-collinear source points the fit still fails, raising `NameError`
from the unbound name `ep_cdp_points`. -/
theorem fit_fails_even_when_nonsingular :
    (init.three_point_set ⟨⟨0, 0⟩, ⟨1, 0⟩, ⟨0, 1⟩⟩
        ⟨⟨0, 0⟩, ⟨1, 0⟩, ⟨2, 0⟩⟩ "u").2 = some PyErr.singularMatrix ∧
    (deltaMat ⟨⟨0, 0⟩, ⟨1, 1⟩, ⟨2, 0⟩⟩).det ≠ 0 ∧
    (init.three_point_set ⟨⟨0, 0⟩, ⟨1, 0⟩, ⟨0, 1⟩⟩
        ⟨⟨0, 0⟩, ⟨1, 1⟩, ⟨2, 0⟩⟩ "u").2 = some PyErr.nameError := by
  norm_num [three_point_set, linalg_inv, deltaMat, Mat2.ofRows, Mat2.transpose,
    Mat2.det, Vec2.sub_def]

/-- C8: cache coherence is not an invariant of the code: a fit attempt on
non-degenerate points mutates `A` (here to `2·I`) and then dies with
`NameError` before recomputing `A_inv`, leaving `A_inv` stale (still the
identity, not `A⁻¹`). -/
theorem failed_fit_leaves_stale_inverse :
    (init.three_point_set ⟨⟨0, 0⟩, ⟨2, 0⟩, ⟨0, 2⟩⟩
        ⟨⟨0, 0⟩, ⟨1, 0⟩, ⟨0, 1⟩⟩ "s").1.A = ⟨2, 0, 0, 2⟩ ∧
    (init.three_point_set ⟨⟨0, 0⟩, ⟨2, 0⟩, ⟨0, 2⟩⟩
        ⟨⟨0, 0⟩, ⟨1, 0⟩, ⟨0, 1⟩⟩ "s").1.A_inv = Mat2.id ∧
    (init.three_point_set ⟨⟨0, 0⟩, ⟨2, 0⟩, ⟨0, 2⟩⟩
        ⟨⟨0, 0⟩, ⟨1, 0⟩, ⟨0, 1⟩⟩ "s").1.A_inv ≠
      ((init.three_point_set ⟨⟨0, 0⟩, ⟨2, 0⟩, ⟨0, 2⟩⟩
        ⟨⟨0, 0⟩, ⟨1, 0⟩, ⟨0, 1⟩⟩ "s").1.A).inv := by
  rw [init_val]
  norm_num [three_point_set, linalg_inv, deltaMat, Mat2.ofRows, Mat2.transpose,
    Mat2.det, Mat2.inv, Mat2.mul, Mat2.id, Vec2.sub_def, Mat2.mk.injEq]

/-- C10: when the source points are degenerate (the difference matrix is
singular), `three_point_set` raises the singular-matrix error and the
final state keeps the prior `A`, `b`, `A_inv`, `b_inv` but has `utm`
already overwritten: the failed fit is not atomic in `utm`. -/
theorem degenerate_fit_mutates_only_utm (t : CoordinateTransform)
    (x_y_points i_j_points : ThreePoints) (utm : String)
    (h : (deltaMat i_j_points).det = 0) :
    t.three_point_set x_y_points i_j_points utm =
      ({ t with utm := utm }, some PyErr.singularMatrix) := by
  simp [three_point_set, linalg_inv, h]

/-! Helper lemmas for the array/vector evaluation pipeline. -/

theorem getLastD_append_single (l : List Nat) (a d : Nat) :
    (l ++ [a]).getLastD d = a := by
  simp [List.getLastD_concat]

theorem PyArr.eq_of (a b : PyArr) (h1 : a.shape = b.shape)
    (h2 : ∀ idx, a.val idx = b.val idx) : a = b := by
  cases a; cases b
  simp only [PyArr.mk.injEq] at *
  exact ⟨h1, funext h2⟩

/-- The pipeline `(s.T.dot(B) + c).T` preserves the shape of `s`. -/
theorem pipeline_shape (B : Mat2) (c : Vec2) (s : PyArr) :
    (((s.T.dotM B).addV c).T).shape = s.shape := by
  simp [PyArr.T, PyArr.dotM, PyArr.addV, List.reverse_reverse]

/-- Entry `(m, idx)` of the pipeline `(s.T.dot(B) + c).T`: the transposes
cancel and the entry is the `m`-th linear combination of the two leading
slices of `s` at `idx`, shifted by the `m`-th component of `c`. -/
theorem pipeline_val (B : Mat2) (c : Vec2) (s : PyArr) (m : Nat) (idx : List Nat) :
    (((s.T.dotM B).addV c).T).val (m :: idx) =
      s.val (0 :: idx) * (if m = 0 then B.m00 else B.m01) +
      s.val (1 :: idx) * (if m = 0 then B.m10 else B.m11) +
      (if m = 0 then c.x else c.y) := by
  simp [PyArr.T, PyArr.dotM, PyArr.addV, List.reverse_cons, List.reverse_concat',
    List.dropLast_concat, List.reverse_reverse, getLastD_append_single]

theorem stackPair_ok (i j : PyArr) (hsh : i.shape = j.shape) :
    stackPair i j = .ok (stackArr i j) := by
  simp [stackPair, hsh]

theorem stackPair_mismatch (i j : PyArr) (hne : i.shape ≠ j.shape) :
    stackPair i j = .error .shapeMismatch := by
  simp [stackPair, hne]

/-- Indexing `x[k, :, ...]` (with `nidx` index expressions) into the
pipeline applied to a stacked pair succeeds when the input rank is at
least `nidx - 1` and yields the elementwise linear-map component. -/
theorem pipeline_index_ok (B : Mat2) (c : Vec2) (i j : PyArr) (k nidx : Nat)
    (hk : k < 2) (hlen : nidx ≤ i.shape.length + 1) :
    ((((stackArr i j).T.dotM B).addV c).T).index k nidx =
      .ok ⟨i.shape, fun idx =>
        i.val idx * (if k = 0 then B.m00 else B.m01) +
        j.val idx * (if k = 0 then B.m10 else B.m11) +
        (if k = 0 then c.x else c.y)⟩ := by
  have hx : ((((stackArr i j).T.dotM B).addV c).T).shape = 2 :: i.shape :=
    pipeline_shape B c (stackArr i j)
  have hcond : ¬(((((stackArr i j).T.dotM B).addV c).T).shape.length < nidx ∨
      ((((stackArr i j).T.dotM B).addV c).T).shape.headD 0 ≤ k) := by
    rw [hx]
    simp only [List.length_cons, List.headD_cons]
    omega
  simp only [PyArr.index, if_neg hcond]
  refine congrArg Except.ok (PyArr.eq_of _ _ (by rw [hx]; rfl) fun idx => ?_)
  rw [pipeline_val]
  simp only [stackArr]
  norm_num

/-- Indexing with more index expressions than the array has axes raises
`IndexError`. -/
theorem pipeline_index_err (B : Mat2) (c : Vec2) (i j : PyArr) (k nidx : Nat)
    (hlen : i.shape.length + 1 < nidx) :
    ((((stackArr i j).T.dotM B).addV c).T).index k nidx = .error .indexError := by
  have hx : ((((stackArr i j).T.dotM B).addV c).T).shape = 2 :: i.shape :=
    pipeline_shape B c (stackArr i j)
  simp only [PyArr.index]
  rw [if_pos (Or.inl (by rw [hx]; simp only [List.length_cons]; omega))]

theorem x_y_array_ok (t : CoordinateTransform) (i j : PyArr)
    (hsh : i.shape = j.shape) (hrank : 2 ≤ i.shape.length) :
    t.x_y_array i j = .ok (elemwiseX t i j, elemwiseY t i j) := by
  unfold CoordinateTransform.x_y_array
  rw [stackPair_ok i j hsh]
  simp only [Bind.bind, Except.bind]
  rw [pipeline_index_ok t.A.transpose t.b i j 0 3 (by omega) (by omega),
      pipeline_index_ok t.A.transpose t.b i j 1 3 (by omega) (by omega)]
  simp only [Pure.pure, Except.pure, Except.ok.injEq, Prod.mk.injEq]
  constructor
  · refine PyArr.eq_of _ _ rfl fun idx => ?_
    simp only [elemwiseX, CoordinateTransform.x_y, Mat2.mulVec, Mat2.transpose,
      Vec2.add_def]
    norm_num
    ring
  · refine PyArr.eq_of _ _ hsh fun idx => ?_
    simp only [elemwiseY, CoordinateTransform.x_y, Mat2.mulVec, Mat2.transpose,
      Vec2.add_def]
    norm_num
    ring

theorem i_j_array_ok (t : CoordinateTransform) (i j : PyArr)
    (hsh : i.shape = j.shape) (hrank : 2 ≤ i.shape.length) :
    t.i_j_array i j = .ok (elemwiseI t i j, elemwiseJ t i j) := by
  unfold CoordinateTransform.i_j_array
  rw [stackPair_ok i j hsh]
  simp only [Bind.bind, Except.bind]
  rw [pipeline_index_ok t.A_inv.transpose t.b_inv i j 0 3 (by omega) (by omega),
      pipeline_index_ok t.A_inv.transpose t.b_inv i j 1 3 (by omega) (by omega)]
  simp only [Pure.pure, Except.pure, Except.ok.injEq, Prod.mk.injEq]
  constructor
  · refine PyArr.eq_of _ _ rfl fun idx => ?_
    simp only [elemwiseI, CoordinateTransform.i_j, Mat2.mulVec, Mat2.transpose,
      Vec2.add_def]
    norm_num
    ring
  · refine PyArr.eq_of _ _ hsh fun idx => ?_
    simp only [elemwiseJ, CoordinateTransform.i_j, Mat2.mulVec, Mat2.transpose,
      Vec2.add_def]
    norm_num
    ring

theorem x_y_vector_ok (t : CoordinateTransform) (i j : PyArr)
    (hsh : i.shape = j.shape) (hrank : 1 ≤ i.shape.length) :
    t.x_y_vector i j = .ok (elemwiseX t i j, elemwiseY t i j) := by
  unfold CoordinateTransform.x_y_vector
  rw [stackPair_ok i j hsh]
  simp only [Bind.bind, Except.bind]
  rw [pipeline_index_ok t.A.transpose t.b i j 0 2 (by omega) (by omega),
      pipeline_index_ok t.A.transpose t.b i j 1 2 (by omega) (by omega)]
  simp only [Pure.pure, Except.pure, Except.ok.injEq, Prod.mk.injEq]
  constructor
  · refine PyArr.eq_of _ _ rfl fun idx => ?_
    simp only [elemwiseX, CoordinateTransform.x_y, Mat2.mulVec, Mat2.transpose,
      Vec2.add_def]
    norm_num
    ring
  · refine PyArr.eq_of _ _ hsh fun idx => ?_
    simp only [elemwiseY, CoordinateTransform.x_y, Mat2.mulVec, Mat2.transpose,
      Vec2.add_def]
    norm_num
    ring

theorem i_j_vector_ok (t : CoordinateTransform) (i j : PyArr)
    (hsh : i.shape = j.shape) (hrank : 1 ≤ i.shape.length) :
    t.i_j_vector i j = .ok (elemwiseI t i j, elemwiseJ t i j) := by
  unfold CoordinateTransform.i_j_vector
  rw [stackPair_ok i j hsh]
  simp only [Bind.bind, Except.bind]
  rw [pipeline_index_ok t.A_inv.transpose t.b_inv i j 0 2 (by omega) (by omega),
      pipeline_index_ok t.A_inv.transpose t.b_inv i j 1 2 (by omega) (by omega)]
  simp only [Pure.pure, Except.pure, Except.ok.injEq, Prod.mk.injEq]
  constructor
  · refine PyArr.eq_of _ _ rfl fun idx => ?_
    simp only [elemwiseI, CoordinateTransform.i_j, Mat2.mulVec, Mat2.transpose,
      Vec2.add_def]
    norm_num
    ring
  · refine PyArr.eq_of _ _ hsh fun idx => ?_
    simp only [elemwiseJ, CoordinateTransform.i_j, Mat2.mulVec, Mat2.transpose,
      Vec2.add_def]
    norm_num
    ring

theorem x_y_array_rank_one (t : CoordinateTransform) (i j : PyArr)
    (hsh : i.shape = j.shape) (hr : i.shape.length = 1) :
    t.x_y_array i j = .error .indexError := by
  unfold CoordinateTransform.x_y_array
  rw [stackPair_ok i j hsh]
  simp only [Bind.bind, Except.bind]
  rw [pipeline_index_err t.A.transpose t.b i j 0 3 (by omega)]

theorem i_j_array_rank_one (t : CoordinateTransform) (i j : PyArr)
    (hsh : i.shape = j.shape) (hr : i.shape.length = 1) :
    t.i_j_array i j = .error .indexError := by
  unfold CoordinateTransform.i_j_array
  rw [stackPair_ok i j hsh]
  simp only [Bind.bind, Except.bind]
  rw [pipeline_index_err t.A_inv.transpose t.b_inv i j 0 3 (by omega)]

/-- C4 (amended): for same-shaped inputs of rank at least 2, `x_y_array`
and `i_j_array` return two arrays whose shapes match the input shapes and
whose entries are the elementwise forward (resp. inverse) map; for
rank-1 inputs those array forms instead raise `IndexError` (the final
`x[0,:,:]` indexing needs at least three axes), while the vector forms
`x_y_vector` / `i_j_vector` have the elementwise semantics on rank-1
(indeed any rank-at-least-1) inputs. -/
theorem array_vector_forms_elementwise (t : CoordinateTransform) (i j : PyArr)
    (hsh : i.shape = j.shape) :
    (2 ≤ i.shape.length →
      t.x_y_array i j = .ok (elemwiseX t i j, elemwiseY t i j) ∧
      t.i_j_array i j = .ok (elemwiseI t i j, elemwiseJ t i j)) ∧
    (i.shape.length = 1 →
      t.x_y_array i j = .error .indexError ∧
      t.i_j_array i j = .error .indexError) ∧
    (1 ≤ i.shape.length →
      t.x_y_vector i j = .ok (elemwiseX t i j, elemwiseY t i j) ∧
      t.i_j_vector i j = .ok (elemwiseI t i j, elemwiseJ t i j)) :=
  ⟨fun h => ⟨x_y_array_ok t i j hsh h, i_j_array_ok t i j hsh h⟩,
   fun h => ⟨x_y_array_rank_one t i j hsh h, i_j_array_rank_one t i j hsh h⟩,
   fun h => ⟨x_y_vector_ok t i j hsh h, i_j_vector_ok t i j hsh h⟩⟩

/-- C4 counterexample: on a pair of same-shaped rank-1 arrays (rank >= 1,
as the claim demands) `x_y_array` does not return two arrays at all: it
raises `IndexError`, because `x[0,:,:]` uses three index expressions on a
two-axis array. -/
theorem x_y_array_rank_one_cex :
    init.x_y_array ⟨[2], fun _ => 0⟩ ⟨[2], fun _ => 0⟩ =
      .error PyErr.indexError := rfl

/-- Witness for C4 (amended) on concrete rank-2 arrays of shape (1,1). -/
theorem array_vector_forms_elementwise_witness :
    init.x_y_array ⟨[1, 1], fun _ => 3⟩ ⟨[1, 1], fun _ => 4⟩ =
      .ok (elemwiseX init ⟨[1, 1], fun _ => 3⟩ ⟨[1, 1], fun _ => 4⟩,
           elemwiseY init ⟨[1, 1], fun _ => 3⟩ ⟨[1, 1], fun _ => 4⟩) ∧
    init.i_j_array ⟨[1, 1], fun _ => 3⟩ ⟨[1, 1], fun _ => 4⟩ =
      .ok (elemwiseI init ⟨[1, 1], fun _ => 3⟩ ⟨[1, 1], fun _ => 4⟩,
           elemwiseJ init ⟨[1, 1], fun _ => 3⟩ ⟨[1, 1], fun _ => 4⟩) :=
  (array_vector_forms_elementwise init ⟨[1, 1], fun _ => 3⟩ ⟨[1, 1], fun _ => 4⟩
    rfl).1 (by norm_num)

/-- C5: every array/vector evaluation form raises the shape-mismatch
error (`ValueError` from `np.array([i, j])`, the spec's ShapeMismatch)
as its very first step whenever the two input arrays have different
shapes, so no partial result is produced. -/
theorem mismatched_shapes_raise (t : CoordinateTransform) (i j : PyArr)
    (hne : i.shape ≠ j.shape) :
    t.x_y_array i j = .error .shapeMismatch ∧
    t.i_j_array i j = .error .shapeMismatch ∧
    t.x_y_vector i j = .error .shapeMismatch ∧
    t.i_j_vector i j = .error .shapeMismatch := by
  unfold CoordinateTransform.x_y_array CoordinateTransform.i_j_array
    CoordinateTransform.x_y_vector CoordinateTransform.i_j_vector
  rw [stackPair_mismatch i j hne]
  exact ⟨rfl, rfl, rfl, rfl⟩

/-- Witness for C5 at the spec's scenario: shapes (3,4) and (3,5). -/
theorem mismatched_shapes_raise_witness :
    init.x_y_array ⟨[3, 4], fun _ => 0⟩ ⟨[3, 5], fun _ => 0⟩ =
      .error .shapeMismatch ∧
    init.i_j_array ⟨[3, 4], fun _ => 0⟩ ⟨[3, 5], fun _ => 0⟩ =
      .error .shapeMismatch ∧
    init.x_y_vector ⟨[3, 4], fun _ => 0⟩ ⟨[3, 5], fun _ => 0⟩ =
      .error .shapeMismatch ∧
    init.i_j_vector ⟨[3, 4], fun _ => 0⟩ ⟨[3, 5], fun _ => 0⟩ =
      .error .shapeMismatch :=
  mismatched_shapes_raise init ⟨[3, 4], fun _ => 0⟩ ⟨[3, 5], fun _ => 0⟩ (by decide)

/-- C9: `clone` allocates a fresh object (a distinct address) whose `A`,
`b`, `A_inv`, `b_inv` equal the source's, and a subsequent three-point
fit on the clone leaves the original object's state untouched. -/
theorem clone_independence (h : ObjHeap) (r1 : Nat) (hr : r1 < h.next)
    (x_y_points i_j_points : ThreePoints) (utm : String) :
    (clone h r1).2 ≠ r1 ∧
    ((clone h r1).1.read (clone h r1).2).A = (h.read r1).A ∧
    ((clone h r1).1.read (clone h r1).2).b = (h.read r1).b ∧
    ((clone h r1).1.read (clone h r1).2).A_inv = (h.read r1).A_inv ∧
    ((clone h r1).1.read (clone h r1).2).b_inv = (h.read r1).b_inv ∧
    (three_point_set_at (clone h r1).1 (clone h r1).2
        x_y_points i_j_points utm).1.read r1 = h.read r1 := by
  have hne : r1 ≠ h.next := Nat.ne_of_lt hr
  refine ⟨fun hc => hne hc.symm, ?_, ?_, ?_, ?_, ?_⟩ <;>
    simp [clone, three_point_set_at, ObjHeap.alloc, ObjHeap.read,
      ObjHeap.write, hne]

/-- Witness for C9 on a one-object heap holding the identity transform. -/
theorem clone_independence_witness :
    (clone ⟨1, fun _ => init⟩ 0).2 ≠ 0 ∧
    ((clone ⟨1, fun _ => init⟩ 0).1.read (clone ⟨1, fun _ => init⟩ 0).2).A =
      (ObjHeap.read ⟨1, fun _ => init⟩ 0).A ∧
    ((clone ⟨1, fun _ => init⟩ 0).1.read (clone ⟨1, fun _ => init⟩ 0).2).b =
      (ObjHeap.read ⟨1, fun _ => init⟩ 0).b ∧
    ((clone ⟨1, fun _ => init⟩ 0).1.read (clone ⟨1, fun _ => init⟩ 0).2).A_inv =
      (ObjHeap.read ⟨1, fun _ => init⟩ 0).A_inv ∧
    ((clone ⟨1, fun _ => init⟩ 0).1.read (clone ⟨1, fun _ => init⟩ 0).2).b_inv =
      (ObjHeap.read ⟨1, fun _ => init⟩ 0).b_inv ∧
    (three_point_set_at (clone ⟨1, fun _ => init⟩ 0).1 (clone ⟨1, fun _ => init⟩ 0).2
        ⟨⟨0, 0⟩, ⟨2, 0⟩, ⟨0, 2⟩⟩ ⟨⟨0, 0⟩, ⟨1, 0⟩, ⟨0, 1⟩⟩ "w").1.read 0 =
      ObjHeap.read ⟨1, fun _ => init⟩ 0 :=
  clone_independence ⟨1, fun _ => init⟩ 0 (by decide)
    ⟨⟨0, 0⟩, ⟨2, 0⟩, ⟨0, 2⟩⟩ ⟨⟨0, 0⟩, ⟨1, 0⟩, ⟨0, 1⟩⟩ "w"

/-- Witness for C10 at the spec's collinear example `src = (0,0),(1,0),(2,0)`. -/
theorem degenerate_fit_mutates_only_utm_witness :
    CoordinateTransform.three_point_set ⟨Mat2.id, ⟨7, 8⟩, Mat2.id, ⟨9, 10⟩, "old"⟩
        ⟨⟨1, 2⟩, ⟨3, 4⟩, ⟨5, 6⟩⟩ ⟨⟨0, 0⟩, ⟨1, 0⟩, ⟨2, 0⟩⟩ "new" =
      (⟨Mat2.id, ⟨7, 8⟩, Mat2.id, ⟨9, 10⟩, "new"⟩, some PyErr.singularMatrix) :=
  degenerate_fit_mutates_only_utm ⟨Mat2.id, ⟨7, 8⟩, Mat2.id, ⟨9, 10⟩, "old"⟩
    ⟨⟨1, 2⟩, ⟨3, 4⟩, ⟨5, 6⟩⟩ ⟨⟨0, 0⟩, ⟨1, 0⟩, ⟨2, 0⟩⟩ "new"
    (by norm_num [deltaMat, Mat2.ofRows, Mat2.transpose, Mat2.det, Vec2.sub_def])

